import Mathlib

/-!
Shallow embedding of the rosbag2 recording (write) path.

The repository contains three iterations of the `rosbag2::Writer`
session orchestrator plus the compression-mode helpers:

* `V1` — `src/rosbag2/src/rosbag2/writer.cpp` (PoC compression branch);
* `V2` — the database-split writer iteration appended in
  `src/rosbag2/src/rosbag2/compression_options.cpp` (after the file
  separator), whose `write` delegates to storage first and evaluates
  `should_split_database` afterwards;
* `P0` — `src/unnamed/part_000`, the iteration using
  `topics_names_to_info_` with `std::map::at` checks.

The compression-mode string conversions come from the first part of
`src/rosbag2/src/rosbag2/compression_options.cpp`.

External collaborators (storage backend, converter, compressor,
filesystem helpers) are modelled as explicit environment records or
argument functions; backend-visible effects are recorded as event
lists so that claims about "no backend write" are observable.
-/

namespace Rosbag2

/-- `rosbag2::CompressionMode` from `compression_options.hpp`. -/
inductive CompressionMode where
  | NONE
  | FILE
  | MESSAGE
deriving DecidableEq, Repr

/-- `compression_mode_from_string` (compression_options.cpp lines 33-46):
empty or "NONE" map to NONE, "FILE" to FILE, "MESSAGE" to MESSAGE, and
every other string logs an error and returns NONE. -/
def compression_mode_from_string (compression_mode : String) : CompressionMode :=
  if compression_mode = "" ∨ compression_mode = "NONE" then CompressionMode.NONE
  else if compression_mode = "FILE" then CompressionMode.FILE
  else if compression_mode = "MESSAGE" then CompressionMode.MESSAGE
  else CompressionMode.NONE

/-- `compression_mode_to_string` (compression_options.cpp lines 48-61). -/
def compression_mode_to_string (compression_mode : CompressionMode) : String :=
  match compression_mode with
  | CompressionMode.NONE => "NONE"
  | CompressionMode.FILE => "FILE"
  | CompressionMode.MESSAGE => "MESSAGE"

/-- `rosbag2::TopicMetadata`: name, type and serialization format. -/
structure TopicMetadata where
  name : String
  type : String
  serialization_format : String
deriving DecidableEq, Repr

/-- Value-initialized `TopicMetadata`, as produced by `TopicInformation info` braces-init. -/
def TopicMetadata.empty : TopicMetadata := ⟨"", "", ""⟩

/-- `rosbag2_storage::TopicInformation`: a topic descriptor plus its message count. -/
structure TopicInformation where
  topic_metadata : TopicMetadata
  message_count : Nat
deriving DecidableEq, Repr

/-- `rosbag2::SerializedBagMessage`: topic name, timestamp (ns) and payload. -/
structure Msg where
  topic_name : String
  time_stamp : Int
  data : String
deriving DecidableEq, Repr

/-- Errors thrown by the writer family (std::runtime_error /
std::out_of_range sites, named after the spec's error taxonomy). -/
inductive WError where
  | SessionNotOpen
  | UnknownTopic
  | StorageInit
  | CompressionFailed
deriving DecidableEq, Repr

/-- Observable effects on the external collaborators. -/
inductive BEvent where
  | split
  | backendWrite (m : Msg)
  | backendCreateTopic (n : String)
  | backendRemoveTopic (n : String)
  | deleteFile (p : String)
  | converterAdd (n : String)
deriving DecidableEq, Repr

/-- Result of one writer operation: the post-state, the collaborator
effects in the order they were issued, and the exception, if one was
thrown (mutations already performed before the throw persist in
`state`, matching C++ exception semantics). -/
structure StepResult (σ : Type) where
  state : σ
  events : List BEvent
  err : Option WError
deriving Repr

/- Association-list model of the `std::map<std::string, TopicInformation>`
registries.  The map's key uniqueness is mirrored by the operations
(insert checks membership first); iteration order is immaterial to the
claims below. -/

/-- Lookup of a topic name in the registry. -/
def lookupTopic : List (String × TopicInformation) → String → Option TopicInformation
  | [], _ => none
  | (k, v) :: rest, n => if k = n then some v else lookupTopic rest n

/-- `++map[name].message_count` on an entry known to exist
(`std::map::at`-style in-place increment). -/
def bumpTopic : List (String × TopicInformation) → String → List (String × TopicInformation)
  | [], _ => []
  | (k, v) :: rest, n =>
    if k = n then (k, { v with message_count := v.message_count + 1 }) :: rest
    else (k, v) :: bumpTopic rest n

/-- `map.erase(name)`: drop the entry with the given key, if any. -/
def eraseTopic : List (String × TopicInformation) → String → List (String × TopicInformation)
  | [], _ => []
  | (k, v) :: rest, n => if k = n then rest else (k, v) :: eraseTopic rest n

/-- Number of registry entries carrying a given key (1 at most for a
well-formed `std::map`). -/
def countKey (l : List (String × TopicInformation)) (n : String) : Nat :=
  (l.filter (fun p => decide (p.1 = n))).length

/-- `++topics_[name].message_count` via `std::map::operator[]`:
default-inserts a value-initialized entry when the key is absent, then
increments its count. -/
def indexBump (l : List (String × TopicInformation)) (n : String) :
    List (String × TopicInformation) :=
  if (lookupTopic l n).isSome then bumpTopic l n
  else l ++ [(n, ⟨TopicMetadata.empty, 1⟩)]

/-- Sum of the per-topic message counts of a list of Topic Info entries. -/
def sumCounts (l : List TopicInformation) : Nat :=
  (l.map (fun ti => ti.message_count)).sum

/-- Models the external `rosbag2_storage::FilesystemHelper::get_folder_name`:
the last `/`-separated component of the uri. -/
def get_folder_name (uri : String) : String :=
  String.mk (uri.data.foldl (fun acc c => if c = '/' then [] else acc ++ [c]) [])

/-- Models the external `rosbag2_storage::FilesystemHelper::concat` for
two components: join with the path separator. -/
def fs_concat (base name : String) : String := base ++ "/" ++ name

/-- `format_storage_uri` (part_000 lines 37-51): folder name of the base,
suffixed with `_<count>` only after the first split, concatenated under
the base folder.  `Writer::next_bagfile_uri_` of writer.cpp (lines
222-235) computes the same string from `bagfile_counter_`. -/
def format_storage_uri (base_folder : String) (storage_count : Nat) : String :=
  let file_name := get_folder_name base_folder
  let file_name :=
    if storage_count > 0 then file_name ++ "_" ++ toString storage_count else file_name
  fs_concat base_folder file_name

/-- `rosbag2_storage::BagMetadata` (field `compression_format` also
stands for the `compression_identifier` field name used by the V1
iteration). Times are nanosecond counts. -/
structure BagMetadata where
  storage_identifier : String
  relative_file_paths : List String
  message_count : Nat
  topics_with_message_count : List TopicInformation
  bag_size : Nat
  starting_time : Int
  duration : Int
  compression_format : String
  compression_mode : String
deriving DecidableEq, Repr

/-- Value-initialized `BagMetadata` braces-init. -/
def BagMetadata.empty : BagMetadata :=
  { storage_identifier := ""
    relative_file_paths := []
    message_count := 0
    topics_with_message_count := []
    bag_size := 0
    starting_time := 0
    duration := 0
    compression_format := ""
    compression_mode := "" }

/-! P0 writer: `src/unnamed/part_000`. -/

/-- Session state of the part_000 `Writer`.  `storage_open` mirrors the
`storage_` null check; `bagfile_size` and `relative_path` are the values
the storage backend handle would report; `max_bagfile_size` is stored at
`open` but — per the source — never read by `should_split_bagfile`. -/
structure P0State where
  storage_open : Bool
  topics_names_to_info : List (String × TopicInformation)
  metadata : BagMetadata
  compression_mode : CompressionMode
  base_folder : String
  max_bagfile_size : Nat
  bagfile_size : Nat
  relative_path : String
  converter_active : Bool
deriving Repr

/-- Responses of the external collaborators during a P0 operation. -/
structure P0Env where
  rollover_open_ok : Bool
  new_bagfile_size : Nat
  compress_uri : String → Option String
  compress_msg : Msg → Msg
  convert : Msg → Msg

/-- `Writer::should_split_bagfile` (part_000 lines 261-271): compares the
backend-reported size against a hardcoded `1024 * 100`; the configured
`max_bagfile_size_` comparison is commented out in the source. -/
def P0.should_split_bagfile (s : P0State) : Bool :=
  decide (1024 * 100 < s.bagfile_size)

/-- `Writer::compress_file` (part_000 lines 207-227): compress the uri,
append the compressed path, then delete the original.  A compressor
failure is an exception: nothing is appended and nothing is deleted. -/
def P0.compress_file (env : P0Env) (s : P0State) (uri_to_compress : String) :
    StepResult P0State :=
  match env.compress_uri uri_to_compress with
  | none => ⟨s, [], some WError.CompressionFailed⟩
  | some compressed_uri =>
    ⟨{ s with metadata := { s.metadata with
        relative_file_paths := s.metadata.relative_file_paths ++ [compressed_uri] } },
      [BEvent.deleteFile uri_to_compress], none⟩

/-- `Writer::split_bagfile` (part_000 lines 180-205): open the rollover
uri (index = current file-list length), re-create every registered topic
on the new handle, then record the just-closed file (compressing it
first in whole-file mode). -/
def P0.split_bagfile (env : P0Env) (s : P0State) : StepResult P0State :=
  let current_uri := s.relative_path
  let storage_uri_rollover :=
    format_storage_uri s.base_folder s.metadata.relative_file_paths.length
  if env.rollover_open_ok then
    let s1 : P0State :=
      { s with relative_path := storage_uri_rollover, bagfile_size := env.new_bagfile_size }
    let create_evts := s1.topics_names_to_info.map (fun p => BEvent.backendCreateTopic p.1)
    if s1.compression_mode = CompressionMode.FILE then
      let r := P0.compress_file env s1 current_uri
      ⟨r.state, BEvent.split :: create_evts ++ r.events, r.err⟩
    else
      ⟨{ s1 with metadata := { s1.metadata with
          relative_file_paths := s1.metadata.relative_file_paths ++ [current_uri] } },
        BEvent.split :: create_evts, none⟩
  else ⟨s, [], some WError.StorageInit⟩

/-- `Writer::create_topic` (part_000 lines 133-161): throw when not open;
register with the converter; insert into the registry and create the
topic on the backend only when the name is not yet registered. -/
def P0.create_topic (s : P0State) (t : TopicMetadata) : StepResult P0State :=
  if s.storage_open then
    let conv_evts := if s.converter_active then [BEvent.converterAdd t.name] else []
    if (lookupTopic s.topics_names_to_info t.name).isSome then ⟨s, conv_evts, none⟩
    else
      ⟨{ s with topics_names_to_info := s.topics_names_to_info ++ [(t.name, ⟨t, 0⟩)] },
        conv_evts ++ [BEvent.backendCreateTopic t.name], none⟩
  else ⟨s, [], some WError.SessionNotOpen⟩

/-- `Writer::remove_topic` (part_000 lines 163-178): throw when not open;
erase from the registry and delegate to the backend when present,
otherwise throw with the registry untouched. -/
def P0.remove_topic (s : P0State) (t : TopicMetadata) : StepResult P0State :=
  if s.storage_open then
    if (lookupTopic s.topics_names_to_info t.name).isSome then
      ⟨{ s with topics_names_to_info := eraseTopic s.topics_names_to_info t.name },
        [BEvent.backendRemoveTopic t.name], none⟩
    else ⟨s, [], some WError.UnknownTopic⟩
  else ⟨s, [], some WError.SessionNotOpen⟩

/-- Tail of `Writer::write` (part_000 lines 242-258), after the split
stage `sr`: propagate a split failure, otherwise update the
earliest/duration bookkeeping, convert, apply the per-message
compression branch, and hand the record to the backend. -/
def P0.write_commit (env : P0Env) (m : Msg) (sr : StepResult P0State) :
    StepResult P0State :=
  match sr.err with
  | some e => ⟨sr.state, sr.events, some e⟩
  | none =>
    let st := min sr.state.metadata.starting_time m.time_stamp
    let du := max sr.state.metadata.duration (m.time_stamp - st)
    let s2 : P0State :=
      { sr.state with metadata := { sr.state.metadata with starting_time := st, duration := du } }
    let converted := if s2.converter_active then env.convert m else m
    let out :=
      if s2.compression_mode = CompressionMode.MESSAGE then env.compress_msg converted
      else converted
    ⟨s2, sr.events ++ [BEvent.backendWrite out], none⟩

/-- `Writer::write` (part_000 lines 229-259): throw when not open;
`topics_names_to_info_.at(name)` throws for an unregistered topic
before any mutation; then increment the topic's count, split if needed,
and commit the message. -/
def P0.write (env : P0Env) (s : P0State) (m : Msg) : StepResult P0State :=
  if s.storage_open then
    match lookupTopic s.topics_names_to_info m.topic_name with
    | none => ⟨s, [], some WError.UnknownTopic⟩
    | some _ =>
      let s1 : P0State :=
        { s with topics_names_to_info := bumpTopic s.topics_names_to_info m.topic_name }
      P0.write_commit env m
        (if P0.should_split_bagfile s1 then P0.split_bagfile env s1 else ⟨s1, [], none⟩)
  else ⟨s, [], some WError.SessionNotOpen⟩

/-- One loop step of `Writer::finalize_metadata`'s topic traversal:
append the Topic Info and add its count to the running total. -/
def P0.finalize_step (md : BagMetadata) (p : String × TopicInformation) : BagMetadata :=
  { md with
    topics_with_message_count := md.topics_with_message_count ++ [p.2],
    message_count := md.message_count + p.2.message_count }

/-- `Writer::finalize_metadata` (part_000 lines 273-293): recompute the
bag size from the file list (`file_size` models
`FilesystemHelper::get_file_size`), clear and rebuild the topic list and
total message count from the registry, and record the compression
format and mode. -/
def P0.finalize_metadata (file_size : String → Nat) (compression_identifier : String)
    (s : P0State) : BagMetadata :=
  let md := { s.metadata with bag_size := (s.metadata.relative_file_paths.map file_size).sum }
  let md := { md with topics_with_message_count := ([] : List TopicInformation), message_count := 0 }
  let md := s.topics_names_to_info.foldl P0.finalize_step md
  { md with
    compression_format := compression_identifier,
    compression_mode := compression_mode_to_string s.compression_mode }

/-! V1 writer: `src/rosbag2/src/rosbag2/writer.cpp`. -/

/-- Result of `Compressor::compress_uri` in the V1 iteration: an explicit
success flag plus the compressed uri. -/
structure CompressionState where
  compression_success : Bool
  compressed_uri : String
deriving DecidableEq, Repr

/-- Session state of the writer.cpp `Writer`. -/
structure V1State where
  storage_open : Bool
  uri : String
  converter_active : Bool
  max_bagfile_size : Nat
  relative_file_paths : List String
  message_count : Nat
  topics : List (String × TopicInformation)
  bagfile_counter : Nat
  start_time : Int
  end_time : Int
  storage_id : String
  bagfile_size : Nat
deriving Repr

/-- Responses of the external collaborators during a V1 operation.
`current_uri` is `storage_factory_->get_current_uri()`. -/
structure V1Env where
  current_uri : String
  rollover_open_ok : Bool
  new_bagfile_size : Nat
  compress : String → CompressionState
  convert : Msg → Msg

/-- `Writer::next_bagfile_uri_` (writer.cpp lines 222-235): format the
next uri from the folder name and the counter, then increment the
counter. -/
def V1.next_bagfile_uri (s : V1State) : String × V1State :=
  let db_name := get_folder_name s.uri
  let db_name :=
    if s.bagfile_counter > 0 then db_name ++ "_" ++ toString s.bagfile_counter else db_name
  (fs_concat s.uri db_name, { s with bagfile_counter := s.bagfile_counter + 1 })

/-- `Writer::should_split_bagfile` (writer.cpp lines 179-188): hardcoded
`1024 * 100` comparison, configured threshold commented out. -/
def V1.should_split_bagfile (s : V1State) : Bool :=
  decide (1024 * 100 < s.bagfile_size)

/-- `Writer::split_bagfile_` (writer.cpp lines 121-153): open the next
uri, re-create the registered topics, compress the just-closed file and
push the compressed path on success — but push `bagfile_uri`, the NEW
rollover target, when compression fails. -/
def V1.split_bagfile (env : V1Env) (s : V1State) : StepResult V1State :=
  let current_uri := env.current_uri
  let p := V1.next_bagfile_uri s
  let bagfile_uri := p.1
  let s1 := p.2
  if env.rollover_open_ok then
    let s2 := { s1 with bagfile_size := env.new_bagfile_size }
    let create_evts := s2.topics.map (fun q => BEvent.backendCreateTopic q.1)
    let cs := env.compress current_uri
    let s3 := { s2 with relative_file_paths := s2.relative_file_paths ++
        [if cs.compression_success then cs.compressed_uri else bagfile_uri] }
    ⟨s3, BEvent.split :: create_evts, none⟩
  else ⟨s1, [], some WError.StorageInit⟩

/-- `Writer::create_topic` (writer.cpp lines 93-109): throw when not
open; register with the converter; `topics_.insert` (which keeps the
existing entry when the key is present); always delegate to the
backend. -/
def V1.create_topic (s : V1State) (t : TopicMetadata) : StepResult V1State :=
  if s.storage_open then
    let conv_evts := if s.converter_active then [BEvent.converterAdd t.name] else []
    let topics :=
      if (lookupTopic s.topics t.name).isSome then s.topics
      else s.topics ++ [(t.name, ⟨t, 0⟩)]
    ⟨{ s with topics := topics }, conv_evts ++ [BEvent.backendCreateTopic t.name], none⟩
  else ⟨s, [], some WError.SessionNotOpen⟩

/-- `Writer::remove_topic` (writer.cpp lines 111-119): throw only when
not open; no registration check — delegate to the backend and erase
whatever entry may exist. -/
def V1.remove_topic (s : V1State) (t : TopicMetadata) : StepResult V1State :=
  if s.storage_open then
    ⟨{ s with topics := eraseTopic s.topics t.name },
      [BEvent.backendRemoveTopic t.name], none⟩
  else ⟨s, [], some WError.SessionNotOpen⟩

/-- `Writer::write` (writer.cpp lines 155-177): throw when not open;
`++topics_[name].message_count` default-inserts an entry for an
unregistered topic; increment the session total; split if needed;
update the time bounds; convert and hand the record to the backend. -/
def V1.write (env : V1Env) (s : V1State) (m : Msg) : StepResult V1State :=
  if s.storage_open then
    let s1 := { s with topics := indexBump s.topics m.topic_name,
                       message_count := s.message_count + 1 }
    let sr : StepResult V1State :=
      if V1.should_split_bagfile s1 then V1.split_bagfile env s1 else ⟨s1, [], none⟩
    match sr.err with
    | some e => ⟨sr.state, sr.events, some e⟩
    | none =>
      let s2 := { sr.state with start_time := min sr.state.start_time m.time_stamp,
                                end_time := max sr.state.end_time m.time_stamp }
      let out := if s2.converter_active then env.convert m else m
      ⟨s2, sr.events ++ [BEvent.backendWrite out], none⟩
  else ⟨s, [], some WError.SessionNotOpen⟩

/-- `Writer::generate_metadata_` (writer.cpp lines 190-220): populate
the metadata from the session counters only when a storage handle
exists; `directory_size` models
`FilesystemHelper::calculate_directory_size(uri_)`. -/
def V1.generate_metadata (directory_size : Nat) (storage_identifier : String)
    (s : V1State) : BagMetadata :=
  if s.storage_open then
    { BagMetadata.empty with
      storage_identifier := storage_identifier,
      relative_file_paths := s.relative_file_paths,
      duration := s.end_time - s.start_time,
      starting_time := s.start_time,
      message_count := s.message_count,
      bag_size := directory_size,
      topics_with_message_count := s.topics.map (fun p => p.2),
      compression_format := "SNAPPY" }
  else BagMetadata.empty

/-! V2 writer: the database-split iteration appended in
`src/rosbag2/src/rosbag2/compression_options.cpp`. -/

/-- Models `rosbag2_storage::storage_interfaces::MAX_BAGFILE_SIZE_NO_SPLIT`,
the sentinel meaning splitting is disabled. -/
def MAX_BAGFILE_SIZE_NO_SPLIT : Nat := 0

/-- Session state of the database-split `Writer`. -/
structure V2State where
  storage_open : Bool
  uri : String
  converter_active : Bool
  max_bagfile_size : Nat
  bagfile_size : Nat
  metadata : BagMetadata
deriving Repr

/-- Responses of the external collaborators during a V2 operation.
`per_file_metadata` is `storage_->get_metadata()`. -/
structure V2Env where
  convert : Msg → Msg
  per_file_metadata : BagMetadata
  new_bagfile_size : Nat

/-- `Writer::should_split_database` (lines 169-173 of the appended
iteration): split only when a threshold is configured and the current
bagfile size strictly exceeds it. -/
def V2.should_split_database (max_bagfile_size bagfile_size : Nat) : Bool :=
  decide (max_bagfile_size ≠ MAX_BAGFILE_SIZE_NO_SPLIT) &&
    decide (max_bagfile_size < bagfile_size)

/-- `topic_already_exists` (lines 186-191 of the appended iteration):
membership of a Topic Info entry in a list. -/
def topic_already_exists (ti_to_find : TopicInformation)
    (topic_list : List TopicInformation) : Bool :=
  topic_list.any (fun ti => decide (ti = ti_to_find))

/-- `get_topics_no_duplicates` (lines 193-207): keep only the incoming
topics that are not already present in the previous list. -/
def get_topics_no_duplicates (prev_topics new_topics : List TopicInformation) :
    List TopicInformation :=
  new_topics.filter (fun ti => ! topic_already_exists ti prev_topics)

/-- `Writer::aggregate_metadata_` (lines 209-232): take `m`'s storage
identifier and bag size; `relative_file_paths.swap` with the by-value
parameter, i.e. REPLACE the aggregate's file list by `m`'s; add the
message counts and durations; keep the earlier real starting time; and
append only the not-yet-present Topic Info entries. -/
def V2.aggregate_metadata (M : BagMetadata) (m : BagMetadata) : BagMetadata :=
  { M with
    storage_identifier := m.storage_identifier,
    relative_file_paths := m.relative_file_paths,
    message_count := M.message_count + m.message_count,
    starting_time :=
      if M.starting_time > m.starting_time ∧ m.starting_time ≠ 0 then m.starting_time
      else M.starting_time,
    duration := M.duration + m.duration,
    bag_size := m.bag_size,
    topics_with_message_count :=
      M.topics_with_message_count ++
        get_topics_no_duplicates M.topics_with_message_count m.topics_with_message_count }

/-- `Writer::write` of the database-split iteration (lines 155-167):
throw when not open; convert and hand the record to the backend FIRST,
then evaluate the split policy and, if it fires, aggregate the per-file
metadata and split the database. -/
def V2.write (env : V2Env) (s : V2State) (m : Msg) : StepResult V2State :=
  if s.storage_open then
    let out := if s.converter_active then env.convert m else m
    let evts := [BEvent.backendWrite out]
    if V2.should_split_database s.max_bagfile_size s.bagfile_size then
      ⟨{ s with metadata := V2.aggregate_metadata s.metadata env.per_file_metadata,
                bagfile_size := env.new_bagfile_size },
        evts ++ [BEvent.split], none⟩
    else ⟨s, evts, none⟩
  else ⟨s, [], some WError.SessionNotOpen⟩

/-! Concrete fixtures used by witnesses and counterexamples. -/

/-- Topic descriptor used by the concrete sessions. -/
def tmetaA : TopicMetadata := ⟨"/a", "std_msgs/String", "cdr"⟩

/-- A message on the registered topic. -/
def msgA : Msg := ⟨"/a", 10, "payload"⟩

/-- A message on a never-registered topic. -/
def msgX : Msg := ⟨"/x", 5, "data"⟩

/-- A freshly opened V1 session: file 0 was created at `bag/bag`, so
`bagfile_counter_` is already 1; the time bounds hold INT64 extremes. -/
def v1open : V1State :=
  { storage_open := true
    uri := "bag"
    converter_active := false
    max_bagfile_size := MAX_BAGFILE_SIZE_NO_SPLIT
    relative_file_paths := []
    message_count := 0
    topics := []
    bagfile_counter := 1
    start_time := 9223372036854775807
    end_time := -9223372036854775808
    storage_id := "sqlite3"
    bagfile_size := 0 }

/-- V1 collaborators: the active file is `bag/bag`, rollover storage
opens fine, and the compressor FAILS on every uri. -/
def v1envFail : V1Env :=
  { current_uri := "bag/bag"
    rollover_open_ok := true
    new_bagfile_size := 0
    compress := fun u => ⟨false, u ++ ".compressed_poc"⟩
    convert := id }

/-- A freshly opened P0 session at `bag/bag`. -/
def p0open : P0State :=
  { storage_open := true
    topics_names_to_info := []
    metadata := { BagMetadata.empty with starting_time := 9223372036854775807 }
    compression_mode := CompressionMode.NONE
    base_folder := "bag"
    max_bagfile_size := MAX_BAGFILE_SIZE_NO_SPLIT
    bagfile_size := 0
    relative_path := "bag/bag"
    converter_active := false }

/-- The same P0 session before `open`. -/
def p0closed : P0State := { p0open with storage_open := false }

/-- P0 collaborators: rollover opens fine, compression succeeds, no
conversion. -/
def p0env : P0Env :=
  { rollover_open_ok := true
    new_bagfile_size := 0
    compress_uri := fun u => some (u ++ ".compressed_poc")
    compress_msg := id
    convert := id }

/-- A V2 session with a 10-byte split threshold whose active file
already holds 11 bytes. -/
def v2full : V2State :=
  { storage_open := true
    uri := "bag"
    converter_active := false
    max_bagfile_size := 10
    bagfile_size := 11
    metadata := BagMetadata.empty }

/-- V2 collaborators: identity conversion, empty per-file metadata. -/
def v2env : V2Env :=
  { convert := id
    per_file_metadata := BagMetadata.empty
    new_bagfile_size := 0 }

/-! Claims C9 and C10: compression-mode string conversions. -/

/-- C9: `compression_mode_from_string` maps the empty string and "NONE"
to NONE, "FILE" to FILE, "MESSAGE" to MESSAGE, and every other string
to NONE rather than failing. -/
theorem compression_mode_from_string_c9 :
    compression_mode_from_string "" = CompressionMode.NONE ∧
    compression_mode_from_string "NONE" = CompressionMode.NONE ∧
    compression_mode_from_string "FILE" = CompressionMode.FILE ∧
    compression_mode_from_string "MESSAGE" = CompressionMode.MESSAGE ∧
    ∀ s : String, s ≠ "" → s ≠ "NONE" → s ≠ "FILE" → s ≠ "MESSAGE" →
      compression_mode_from_string s = CompressionMode.NONE := by
  refine ⟨by decide, by decide, by decide, by decide, ?_⟩
  intro s h1 h2 h3 h4
  simp [compression_mode_from_string, h1, h2, h3, h4]

/-- Witness for C9 at the concrete unknown string "zstd". -/
theorem compression_mode_from_string_c9_witness :
    compression_mode_from_string "zstd" = CompressionMode.NONE :=
  compression_mode_from_string_c9.2.2.2.2 "zstd"
    (by decide) (by decide) (by decide) (by decide)

/-- C10: parsing the printed name of any compression mode yields the
original mode. -/
theorem compression_mode_round_trip_c10 (m : CompressionMode) :
    compression_mode_from_string (compression_mode_to_string m) = m := by
  cases m <;> decide

/-! Claim C2: split-size threshold. -/

/-- C2 (code bug): `should_split_database` implements the claimed
threshold semantics — false whenever the threshold is unset, and
strictly-greater-than otherwise — but the `should_split_bagfile` of
both the part_000 and the writer.cpp iterations ignores the configured
threshold and splits past a hardcoded 102400 bytes even when splitting
was never configured. -/
theorem should_split_threshold_c2 :
    (∀ sz : Nat, V2.should_split_database MAX_BAGFILE_SIZE_NO_SPLIT sz = false) ∧
    V2.should_split_database 100 100 = false ∧
    V2.should_split_database 100 101 = true ∧
    P0.should_split_bagfile { p0open with bagfile_size := 102401 } = true ∧
    P0.should_split_bagfile { p0open with bagfile_size := 102400 } = false ∧
    V1.should_split_bagfile { v1open with bagfile_size := 102401 } = true := by
  refine ⟨?_, by decide, by decide, by decide, by decide, by decide⟩
  intro sz
  simp [V2.should_split_database]

/-! Claim C5: compression failure during rollover. -/

/-- C5 (code bug): when the compressor fails during a V1 rollover from
the active file `bag/bag` to the new file `bag/bag_1`, the path
appended to the metadata file list is `bag/bag_1` — the NEW rollover
target — and the uncompressed original `bag/bag` is never listed. -/
theorem split_compression_failure_c5 :
    (V1.split_bagfile v1envFail v1open).err = none ∧
    (V1.split_bagfile v1envFail v1open).state.relative_file_paths = ["bag/bag_1"] ∧
    "bag/bag" ∉ (V1.split_bagfile v1envFail v1open).state.relative_file_paths := by
  refine ⟨by decide, ?_, ?_⟩ <;> decide

/-! Claim C1: write on an unregistered topic. -/

/-- C1 (amended): in the part_000 writer, `write` on an open session
whose registry does not contain the message's topic fails with
`UnknownTopicError`, leaves the state unchanged, and issues no
collaborator effect. -/
theorem write_unknown_topic_c1 (env : P0Env) (s : P0State) (m : Msg)
    (hopen : s.storage_open = true)
    (hmiss : lookupTopic s.topics_names_to_info m.topic_name = none) :
    P0.write env s m = ⟨s, [], some WError.UnknownTopic⟩ := by
  simp [P0.write, hopen, hmiss]

/-- Witness for C1: the fresh open session with empty registry rejects
a message on `/x`. -/
theorem write_unknown_topic_c1_witness :
    p0open.storage_open = true ∧
    P0.write p0env p0open msgX = ⟨p0open, [], some WError.UnknownTopic⟩ :=
  ⟨rfl, write_unknown_topic_c1 p0env p0open msgX rfl rfl⟩

/-- C1 counterexample: the writer.cpp variant silently accepts a write
on the never-registered topic `/x` — no error, a counter is created and
set to 1, the session total increments, and the record is handed to the
backend. -/
theorem write_unknown_topic_c1_counterexample :
    lookupTopic v1open.topics "/x" = none ∧
    (V1.write v1envFail v1open msgX).err = none ∧
    lookupTopic (V1.write v1envFail v1open msgX).state.topics "/x" =
      some ⟨TopicMetadata.empty, 1⟩ ∧
    (V1.write v1envFail v1open msgX).state.message_count = 1 ∧
    (V1.write v1envFail v1open msgX).events = [BEvent.backendWrite msgX] := by
  refine ⟨by decide, by decide, by decide, by decide, by decide⟩

/-! Claim C8: remove_topic errors. -/

/-- C8 (amended): in the part_000 writer, `remove_topic` on a closed
session fails with `SessionNotOpenError`, and on an open session whose
registry lacks the name fails with `UnknownTopicError`; in both cases
the state is unchanged and the backend is not invoked. -/
theorem remove_topic_errors_c8 :
    (∀ (s : P0State) (t : TopicMetadata), s.storage_open = false →
      P0.remove_topic s t = ⟨s, [], some WError.SessionNotOpen⟩) ∧
    (∀ (s : P0State) (t : TopicMetadata), s.storage_open = true →
      lookupTopic s.topics_names_to_info t.name = none →
      P0.remove_topic s t = ⟨s, [], some WError.UnknownTopic⟩) := by
  constructor
  · intro s t h
    simp [P0.remove_topic, h]
  · intro s t ho hl
    simp [P0.remove_topic, ho, hl]

/-- Witness for C8 at the concrete closed and open sessions. -/
theorem remove_topic_errors_c8_witness :
    P0.remove_topic p0closed tmetaA = ⟨p0closed, [], some WError.SessionNotOpen⟩ ∧
    P0.remove_topic p0open tmetaA = ⟨p0open, [], some WError.UnknownTopic⟩ :=
  ⟨remove_topic_errors_c8.1 p0closed tmetaA rfl,
   remove_topic_errors_c8.2 p0open tmetaA rfl rfl⟩

/-- C8 counterexample: the writer.cpp variant removes a never-registered
topic without any error and still invokes the backend's remove. -/
theorem remove_topic_errors_c8_counterexample :
    lookupTopic v1open.topics "/x" = none ∧
    (V1.remove_topic v1open ⟨"/x", "t", "cdr"⟩).err = none ∧
    (V1.remove_topic v1open ⟨"/x", "t", "cdr"⟩).events =
      [BEvent.backendRemoveTopic "/x"] := by
  refine ⟨by decide, by decide, by decide⟩

/-! Claim C7: metadata aggregation merge. -/

/-- C7 (amended): `aggregate_metadata_` replaces the aggregate's file
list wholesale with `m`'s file list; the only-append-if-absent merge is
applied to the per-topic Topic Info entries, whose union is exactly the
membership union of the two lists. -/
theorem aggregate_metadata_c7 (M m : BagMetadata) :
    (V2.aggregate_metadata M m).relative_file_paths = m.relative_file_paths ∧
    ∀ ti : TopicInformation,
      ti ∈ (V2.aggregate_metadata M m).topics_with_message_count ↔
        (ti ∈ M.topics_with_message_count ∨ ti ∈ m.topics_with_message_count) := by
  refine ⟨rfl, ?_⟩
  intro ti
  by_cases hM : ti ∈ M.topics_with_message_count <;>
    simp [V2.aggregate_metadata, get_topics_no_duplicates, topic_already_exists,
      List.mem_filter, List.any_eq_true, hM]
  intro _ x hx hxe
  exact hM (hxe ▸ hx)

/-- C7 counterexample: merging an aggregate whose file list is `[f0]`
with per-file metadata whose file list is `[f1]` drops `f0` entirely,
contradicting both the append-only-new and the never-remove clauses. -/
theorem aggregate_metadata_c7_counterexample :
    "f0" ∈ ({ BagMetadata.empty with relative_file_paths := ["f0"] } :
        BagMetadata).relative_file_paths ∧
    (V2.aggregate_metadata { BagMetadata.empty with relative_file_paths := ["f0"] }
        { BagMetadata.empty with relative_file_paths := ["f1"] }).relative_file_paths
      = ["f1"] ∧
    "f0" ∉ (V2.aggregate_metadata { BagMetadata.empty with relative_file_paths := ["f0"] }
        { BagMetadata.empty with relative_file_paths := ["f1"] }).relative_file_paths := by
  refine ⟨by decide, by decide, by decide⟩

/-! Registry lemmas shared by the claims below. -/

/-- A key is absent from the registry exactly when no entry carries it. -/
theorem lookupTopic_none_iff (l : List (String × TopicInformation)) (n : String) :
    lookupTopic l n = none ↔ countKey l n = 0 := by
  induction l with
  | nil => simp [lookupTopic, countKey]
  | cons p rest ih =>
    obtain ⟨k, v⟩ := p
    by_cases hk : k = n
    · simp [lookupTopic, countKey, List.filter, hk]
    · simpa [lookupTopic, countKey, List.filter, hk] using ih

/-- Key multiplicity distributes over registry concatenation. -/
theorem countKey_append (l₁ l₂ : List (String × TopicInformation)) (n : String) :
    countKey (l₁ ++ l₂) n = countKey l₁ n + countKey l₂ n := by
  simp [countKey, List.filter_append]

/-- Appending an entry for an absent key makes it the one found. -/
theorem lookupTopic_append_right (l : List (String × TopicInformation)) (n : String)
    (v : TopicInformation) (h : lookupTopic l n = none) :
    lookupTopic (l ++ [(n, v)]) n = some v := by
  induction l with
  | nil => simp [lookupTopic]
  | cons p rest ih =>
    obtain ⟨k, w⟩ := p
    by_cases hk : k = n
    · simp [lookupTopic, hk] at h
    · simp [lookupTopic, hk] at h ⊢
      exact ih h

/-! Claim C4: create_topic idempotence. -/

/-- C4: in both the part_000 and writer.cpp iterations, a second
`create_topic` with the same name returns the same session state (so
the counter is untouched), reports no error, and the registry carries
exactly one entry for the name. -/
theorem create_topic_idempotent_c4 :
    (∀ (s : P0State) (t : TopicMetadata), s.storage_open = true →
      countKey s.topics_names_to_info t.name ≤ 1 →
      (P0.create_topic (P0.create_topic s t).state t).state = (P0.create_topic s t).state ∧
      (P0.create_topic (P0.create_topic s t).state t).err = none ∧
      countKey (P0.create_topic s t).state.topics_names_to_info t.name = 1) ∧
    (∀ (s : V1State) (t : TopicMetadata), s.storage_open = true →
      countKey s.topics t.name ≤ 1 →
      (V1.create_topic (V1.create_topic s t).state t).state = (V1.create_topic s t).state ∧
      (V1.create_topic (V1.create_topic s t).state t).err = none ∧
      countKey (V1.create_topic s t).state.topics t.name = 1) := by
  constructor
  · intro s t ho hc
    by_cases hl : (lookupTopic s.topics_names_to_info t.name).isSome
    · have h1 : (P0.create_topic s t).state = s := by
        simp [P0.create_topic, ho, hl]
      have hpos : countKey s.topics_names_to_info t.name ≠ 0 := by
        intro h0
        rw [(lookupTopic_none_iff _ _).mpr h0] at hl
        simp at hl
      rw [h1]
      exact ⟨h1, by simp [P0.create_topic, ho, hl], by omega⟩
    · have hnone : lookupTopic s.topics_names_to_info t.name = none := by
        cases h : lookupTopic s.topics_names_to_info t.name
        · rfl
        · rw [h] at hl; simp at hl
      have h1 : (P0.create_topic s t).state =
          { s with topics_names_to_info := s.topics_names_to_info ++ [(t.name, ⟨t, 0⟩)] } := by
        simp [P0.create_topic, ho, hnone]
      have h2 : lookupTopic (s.topics_names_to_info ++ [(t.name, (⟨t, 0⟩ : TopicInformation))])
          t.name = some ⟨t, 0⟩ := lookupTopic_append_right _ _ _ hnone
      rw [h1]
      refine ⟨?_, ?_, ?_⟩
      · simp [P0.create_topic, ho, h2]
      · simp [P0.create_topic, ho, h2]
      · rw [countKey_append, (lookupTopic_none_iff _ _).mp hnone]
        simp [countKey, List.filter]
  · intro s t ho hc
    by_cases hl : (lookupTopic s.topics t.name).isSome
    · have h1 : (V1.create_topic s t).state = s := by
        simp [V1.create_topic, ho, hl]
        rw [← ho]
      have hpos : countKey s.topics t.name ≠ 0 := by
        intro h0
        rw [(lookupTopic_none_iff _ _).mpr h0] at hl
        simp at hl
      rw [h1]
      exact ⟨h1, by simp [V1.create_topic, ho], by omega⟩
    · have hnone : lookupTopic s.topics t.name = none := by
        cases h : lookupTopic s.topics t.name
        · rfl
        · rw [h] at hl; simp at hl
      have h1 : (V1.create_topic s t).state =
          { s with topics := s.topics ++ [(t.name, ⟨t, 0⟩)] } := by
        simp [V1.create_topic, ho, hnone]
      have h2 : lookupTopic (s.topics ++ [(t.name, (⟨t, 0⟩ : TopicInformation))])
          t.name = some ⟨t, 0⟩ := lookupTopic_append_right _ _ _ hnone
      rw [h1]
      refine ⟨?_, ?_, ?_⟩
      · simp [V1.create_topic, ho, h2]
      · simp [V1.create_topic, ho]
      · rw [countKey_append, (lookupTopic_none_iff _ _).mp hnone]
        simp [countKey, List.filter]

/-- Witness for C4 at the fresh open sessions and topic `/a`. -/
theorem create_topic_idempotent_c4_witness :
    ((P0.create_topic (P0.create_topic p0open tmetaA).state tmetaA).state
        = (P0.create_topic p0open tmetaA).state ∧
      (P0.create_topic (P0.create_topic p0open tmetaA).state tmetaA).err = none ∧
      countKey (P0.create_topic p0open tmetaA).state.topics_names_to_info tmetaA.name = 1) ∧
    ((V1.create_topic (V1.create_topic v1open tmetaA).state tmetaA).state
        = (V1.create_topic v1open tmetaA).state ∧
      (V1.create_topic (V1.create_topic v1open tmetaA).state tmetaA).err = none ∧
      countKey (V1.create_topic v1open tmetaA).state.topics tmetaA.name = 1) :=
  ⟨create_topic_idempotent_c4.1 p0open tmetaA rfl (by decide),
   create_topic_idempotent_c4.2 v1open tmetaA rfl (by decide)⟩

/-! Claim C6: total message count vs per-topic counts. -/

/-- The finalize loop appends exactly the registry's Topic Info values. -/
theorem foldl_finalize_topics (ts : List (String × TopicInformation)) (md : BagMetadata) :
    (ts.foldl P0.finalize_step md).topics_with_message_count =
      md.topics_with_message_count ++ ts.map (fun p => p.2) := by
  induction ts generalizing md with
  | nil => simp
  | cons p rest ih => simp [ih, P0.finalize_step]

/-- The finalize loop adds exactly the registry's message counts. -/
theorem foldl_finalize_count (ts : List (String × TopicInformation)) (md : BagMetadata) :
    (ts.foldl P0.finalize_step md).message_count =
      md.message_count + sumCounts (ts.map (fun p => p.2)) := by
  induction ts generalizing md with
  | nil => simp [sumCounts]
  | cons p rest ih =>
    simp [ih, P0.finalize_step, sumCounts]
    omega

/-- C6 (amended): for every part_000 session state, the finalized Bag
Metadata's total message count equals the sum of the per-topic counts
over the Topic Info entries it carries. -/
theorem finalize_metadata_total_c6 (file_size : String → Nat)
    (compression_identifier : String) (s : P0State) :
    (P0.finalize_metadata file_size compression_identifier s).message_count =
      sumCounts
        (P0.finalize_metadata file_size compression_identifier s).topics_with_message_count := by
  simp [P0.finalize_metadata, foldl_finalize_topics, foldl_finalize_count, sumCounts]

/-- The V1 session `open → create /a → write /a → remove /a → close`. -/
def c6state : V1State :=
  (V1.remove_topic
    (V1.write v1envFail (V1.create_topic v1open tmetaA).state msgA).state
    tmetaA).state

/-- C6 counterexample: in the writer.cpp variant, the session that
writes one message on `/a` and then removes `/a` finalizes metadata
with total message count 1 but per-topic sum 0. -/
theorem finalize_metadata_total_c6_counterexample :
    (V1.generate_metadata 0 "sqlite3" c6state).message_count = 1 ∧
    sumCounts (V1.generate_metadata 0 "sqlite3" c6state).topics_with_message_count = 0 := by
  refine ⟨by decide, by decide⟩

/-! Claim C3: rollover ordering within one write call. -/

/-- Whether an event is a backend message write. -/
def isBackendWrite : BEvent → Bool
  | BEvent.backendWrite _ => true
  | _ => false

/-- Whether an event trace contains a rollover. -/
def containsSplit (l : List BEvent) : Bool :=
  l.any (fun e => decide (e = BEvent.split))

/-- A trace satisfies the message-aligned-rollover ordering when no
backend message write is followed, later in the same trace, by a
rollover. -/
def noWriteBeforeSplit : List BEvent → Bool
  | [] => true
  | BEvent.backendWrite _ :: rest => ! containsSplit rest && noWriteBeforeSplit rest
  | _ :: rest => noWriteBeforeSplit rest

/-- A non-write head does not affect the ordering condition. -/
theorem noWriteBeforeSplit_cons_of_not_write (e : BEvent) (l : List BEvent)
    (h : isBackendWrite e = false) :
    noWriteBeforeSplit (e :: l) = noWriteBeforeSplit l := by
  cases e <;> simp_all [noWriteBeforeSplit, isBackendWrite]

/-- A trace of non-writes followed by a single final backend write is
correctly ordered. -/
theorem noWriteBeforeSplit_append_write (l : List BEvent) (m : Msg)
    (h : ∀ e ∈ l, isBackendWrite e = false) :
    noWriteBeforeSplit (l ++ [BEvent.backendWrite m]) = true := by
  induction l with
  | nil => simp [noWriteBeforeSplit, containsSplit]
  | cons e rest ih =>
    have he : isBackendWrite e = false := h e (by simp)
    rw [List.cons_append, noWriteBeforeSplit_cons_of_not_write e _ he]
    exact ih (fun x hx => h x (by simp [hx]))

/-- A trace without any backend write is trivially correctly ordered. -/
theorem noWriteBeforeSplit_of_no_write (l : List BEvent)
    (h : ∀ e ∈ l, isBackendWrite e = false) :
    noWriteBeforeSplit l = true := by
  induction l with
  | nil => rfl
  | cons e rest ih =>
    have he : isBackendWrite e = false := h e (by simp)
    rw [noWriteBeforeSplit_cons_of_not_write e _ he]
    exact ih (fun x hx => h x (by simp [hx]))

/-- The rollover procedure itself never writes a message to the
backend: its trace holds only split, topic re-creation and file
deletion events. -/
theorem P0_split_bagfile_no_write (env : P0Env) (s : P0State) :
    ∀ e ∈ (P0.split_bagfile env s).events, isBackendWrite e = false := by
  intro e he
  cases e <;> try rfl
  case backendWrite m =>
    exfalso
    unfold P0.split_bagfile at he
    dsimp only at he
    split at he
    · split at he
      · unfold P0.compress_file at he
        split at he <;> simp at he
      · simp at he
    · simp at he

/-- The commit stage preserves the ordering condition when the split
stage's trace holds no backend write. -/
theorem P0_write_commit_ordered (env : P0Env) (m : Msg) (sr : StepResult P0State)
    (h : ∀ e ∈ sr.events, isBackendWrite e = false) :
    noWriteBeforeSplit (P0.write_commit env m sr).events = true := by
  unfold P0.write_commit
  cases herr : sr.err with
  | some e =>
    simp only [herr]
    exact noWriteBeforeSplit_of_no_write _ h
  | none =>
    simp only [herr]
    exact noWriteBeforeSplit_append_write _ _ h

/-- C3 (amended): in the part_000 writer, every trace produced by one
`write` call is message-aligned — the backend write, when it happens,
comes after any rollover of that call, never before. -/
theorem write_split_order_c3 (env : P0Env) (s : P0State) (m : Msg) :
    noWriteBeforeSplit (P0.write env s m).events = true := by
  unfold P0.write
  dsimp only
  split
  · split
    · rfl
    · apply P0_write_commit_ordered
      split
      · exact P0_split_bagfile_no_write env _
      · intro e he
        simp at he
  · rfl

/-- C3 counterexample: in the database-split writer iteration, the
write on a session whose active file already exceeds the threshold
hands the message to the backend FIRST and splits afterwards, so the
trace violates the claimed ordering. -/
theorem write_split_order_c3_counterexample :
    (V2.write v2env v2full msgA).events = [BEvent.backendWrite msgA, BEvent.split] ∧
    noWriteBeforeSplit (V2.write v2env v2full msgA).events = false := by
  refine ⟨by decide, by decide⟩

end Rosbag2
